import Mathlib

/-!
# Verification of the `transmitter` WebSocket broker

Shallow embedding of `src/transmitter/src/main.rs` (actix-web WebSocket
broker with streamer/watcher roles) and proofs about its behaviour.

Actor addresses (`Addr<_>`) are modelled as natural numbers; the global
`STREAMERS` map and each streamer's `watchers` map are association lists
with HashMap semantics (key-unique, insert replaces).  Side effects of a
handler (`ctx.text`, `addr.do_send`, closing the socket) are reified as an
explicit `Effect` list.  `serde_json` parsing/serialization is an external
library; it is modelled by an executable JSON parser / string-list
serializer below, faithful to the JSON grammar.
-/

namespace Transmitter

/-- JSON values, as produced by `serde_json::from_str::<Value>`.  Numbers
keep their source lexeme (no claim depends on numeric semantics). -/
inductive Json where
  | null : Json
  | bool (b : Bool) : Json
  | num (lexeme : String) : Json
  | str (s : String) : Json
  | arr (items : List Json) : Json
  | obj (fields : List (String × Json)) : Json

/-- `Value::get(key)`: field lookup on an object, `none` on any other
value.  serde's map keeps the last occurrence of a duplicated key, hence
the right-to-left fold. -/
def Json.get (j : Json) (key : String) : Option Json :=
  match j with
  | Json.obj fields => fields.foldl (fun acc p => if p.1 = key then some p.2 else acc) none
  | _ => none

/-- `Value::as_str()`. -/
def Json.asStr : Json → Option String
  | Json.str s => some s
  | _ => none

/-- The two brace characters, kept as named constants. -/
def lbrace : Char := Char.ofNat 123

def rbrace : Char := Char.ofNat 125

/-- JSON insignificant whitespace. -/
def isWs (c : Char) : Bool :=
  c = ' ' || c = '\n' || c = '\r' || c = '\t'

def skipWs : List Char → List Char
  | [] => []
  | c :: cs => if isWs c then skipWs cs else c :: cs

def hexDigitVal (c : Char) : Option Nat :=
  if '0' ≤ c ∧ c ≤ '9' then some (c.toNat - '0'.toNat)
  else if 'a' ≤ c ∧ c ≤ 'f' then some (c.toNat - 'a'.toNat + 10)
  else if 'A' ≤ c ∧ c ≤ 'F' then some (c.toNat - 'A'.toNat + 10)
  else none

/-- Single-character JSON escapes (`\"`, `\\`, `\/`, `\b`, `\f`, `\n`,
`\r`, `\t`). -/
def escChar (e : Char) : Option Char :=
  if e = '\"' then some '\"'
  else if e = '\\' then some '\\'
  else if e = '/' then some '/'
  else if e = 'b' then some (Char.ofNat 8)
  else if e = 'f' then some (Char.ofNat 12)
  else if e = 'n' then some '\n'
  else if e = 'r' then some '\r'
  else if e = 't' then some '\t'
  else none

/-- Parse the body of a JSON string after the opening quote; returns the
decoded characters and the input remaining after the closing quote.
Unescaped control characters (below 0x20) are rejected, per the JSON
grammar. -/
def parseStrBody : List Char → Option (List Char × List Char)
  | [] => none
  | c :: cs =>
    if c = '\"' then some ([], cs)
    else if c = '\\' then
      match cs with
      | [] => none
      | e :: cs2 =>
        if e = 'u' then
          match cs2 with
          | h1 :: h2 :: h3 :: h4 :: cs3 =>
            match hexDigitVal h1, hexDigitVal h2, hexDigitVal h3, hexDigitVal h4 with
            | some a, some b, some c3, some d =>
              (parseStrBody cs3).map
                (fun p => (Char.ofNat (((a * 16 + b) * 16 + c3) * 16 + d) :: p.1, p.2))
            | _, _, _, _ => none
          | _ => none
        else
          match escChar e with
          | some r => (parseStrBody cs2).map (fun p => (r :: p.1, p.2))
          | none => none
    else if c.toNat < 32 then none
    else (parseStrBody cs).map (fun p => (c :: p.1, p.2))

def isDigit (c : Char) : Bool := '0' ≤ c && c ≤ '9'

def takeDigits : List Char → List Char × List Char
  | [] => ([], [])
  | c :: cs =>
    if isDigit c then
      let p := takeDigits cs
      (c :: p.1, p.2)
    else ([], c :: cs)

/-- Exponent part after the `e`/`E` marker. -/
def expTail (mark : Char) (cs : List Char) : List Char × List Char :=
  match cs with
  | '+' :: r => let p := takeDigits r; (mark :: '+' :: p.1, p.2)
  | '-' :: r => let p := takeDigits r; (mark :: '-' :: p.1, p.2)
  | _ => let p := takeDigits cs; (mark :: p.1, p.2)

/-- Lex a JSON number starting at `cs`.  Slightly lenient (leading zeros
and empty fraction/exponent digit runs are accepted); leniency only makes
the well-formedness predicate weaker on inputs no claim touches. -/
def parseNum (cs : List Char) : Option (List Char × List Char) :=
  let p0 : List Char × List Char :=
    match cs with
    | '-' :: r => (['-'], r)
    | _ => ([], cs)
  match takeDigits p0.2 with
  | ([], _) => none
  | (ds, rest) =>
    let p1 : List Char × List Char :=
      match rest with
      | '.' :: r => let q := takeDigits r; ('.' :: q.1, q.2)
      | _ => ([], rest)
    let p2 : List Char × List Char :=
      match p1.2 with
      | 'e' :: r => expTail 'e' r
      | 'E' :: r => expTail 'E' r
      | _ => ([], p1.2)
    some (p0.1 ++ ds ++ p1.1 ++ p2.1, p2.2)

mutual

/-- Parse one JSON value (leading whitespace allowed); fuel-indexed. -/
def parseVal : Nat → List Char → Option (Json × List Char)
  | 0, _ => none
  | fuel + 1, cs =>
    match skipWs cs with
    | [] => none
    | c :: rest =>
      if c = '\"' then (parseStrBody rest).map (fun p => (Json.str (String.mk p.1), p.2))
      else if c = lbrace then
        match skipWs rest with
        | [] => none
        | d :: r =>
          if d = rbrace then some (Json.obj [], r)
          else parseObjItems fuel (d :: r) []
      else if c = '[' then
        match skipWs rest with
        | [] => none
        | d :: r =>
          if d = ']' then some (Json.arr [], r)
          else parseArrItems fuel (d :: r) []
      else if c = 't' then
        match rest with
        | 'r' :: 'u' :: 'e' :: r => some (Json.bool true, r)
        | _ => none
      else if c = 'f' then
        match rest with
        | 'a' :: 'l' :: 's' :: 'e' :: r => some (Json.bool false, r)
        | _ => none
      else if c = 'n' then
        match rest with
        | 'u' :: 'l' :: 'l' :: r => some (Json.null, r)
        | _ => none
      else if c = '-' ∨ isDigit c then
        (parseNum (c :: rest)).map (fun p => (Json.num (String.mk p.1), p.2))
      else none

/-- Parse the members of a non-empty object, positioned at the opening
quote of a key (whitespace already skipped). -/
def parseObjItems : Nat → List Char → List (String × Json) → Option (Json × List Char)
  | 0, _, _ => none
  | fuel + 1, cs, acc =>
    match cs with
    | '\"' :: rest =>
      match parseStrBody rest with
      | none => none
      | some (key, r1) =>
        match skipWs r1 with
        | ':' :: r2 =>
          match parseVal fuel r2 with
          | none => none
          | some (v, r3) =>
            match skipWs r3 with
            | [] => none
            | c2 :: r4 =>
              if c2 = ',' then parseObjItems fuel (skipWs r4) (acc ++ [(String.mk key, v)])
              else if c2 = rbrace then some (Json.obj (acc ++ [(String.mk key, v)]), r4)
              else none
        | _ => none
    | _ => none

/-- Parse the elements of a non-empty array, positioned at the first
element. -/
def parseArrItems : Nat → List Char → List Json → Option (Json × List Char)
  | 0, _, _ => none
  | fuel + 1, cs, acc =>
    match parseVal fuel cs with
    | none => none
    | some (v, r1) =>
      match skipWs r1 with
      | ',' :: r2 => parseArrItems fuel r2 (acc ++ [v])
      | ']' :: r2 => some (Json.arr (acc ++ [v]), r2)
      | _ => none

end

/-- `serde_json::from_str::<Value>`: parse a complete JSON document;
`none` models `Err(_)` (the text is not well-formed JSON). -/
def parseJson (s : String) : Option Json :=
  match parseVal (s.length + 1) s.data with
  | some (j, rest) => if skipWs rest = [] then some j else none
  | none => none

def hexDigitChar (n : Nat) : Char :=
  if n < 10 then Char.ofNat ('0'.toNat + n)
  else Char.ofNat ('a'.toNat + (n - 10))

/-- serde's escaping of one character inside a JSON string. -/
def escapeJsonChar (c : Char) : List Char :=
  if c = '\"' then ['\\', '\"']
  else if c = '\\' then ['\\', '\\']
  else if c.toNat < 32 then
    if c = Char.ofNat 8 then ['\\', 'b']
    else if c = '\t' then ['\\', 't']
    else if c = '\n' then ['\\', 'n']
    else if c = Char.ofNat 12 then ['\\', 'f']
    else if c = '\r' then ['\\', 'r']
    else ['\\', 'u', '0', '0', hexDigitChar (c.toNat / 16), hexDigitChar (c.toNat % 16)]
  else [c]

/-- serde's serialization of one string, quotes included. -/
def encodeJsonString (s : String) : List Char :=
  '\"' :: s.data.foldr (fun c acc => escapeJsonChar c ++ acc) ['\"']

def encodeItems : List String → List Char
  | [] => []
  | [x] => encodeJsonString x
  | x :: rest => encodeJsonString x ++ ',' :: encodeItems rest

/-- `serde_json::to_string(&Vec<String>)`. -/
def serializeStringList (xs : List String) : String :=
  String.mk ('[' :: (encodeItems xs ++ [']']))

/-- A character that passes through a JSON string body unescaped: not a
quote, not a backslash, not a control character. -/
def jsonPlainChar (c : Char) : Bool :=
  !(c == '\"') && !(c == '\\') && !(decide (c.toNat < 32))

/-! ## State: the global `STREAMERS` store and the per-streamer watcher map

`Addr<A>` is modelled as a `Nat`; `HashMap` as a key-unique association
list (`insertKV` replaces any previous binding, `eraseK` removes it). -/

abbrev Store := List (String × Nat)

def insertKV (k : String) (v : Nat) (m : List (String × Nat)) : List (String × Nat) :=
  (k, v) :: m.filter (fun p => !(p.1 == k))

def eraseK (k : String) (m : List (String × Nat)) : List (String × Nat) :=
  m.filter (fun p => !(p.1 == k))

/-- Reified side effects of one handler invocation.  `text` is `ctx.text`
on the session's own socket; the `send*` constructors are `do_send` to
another actor's mailbox; the two `close*` constructors are in the effect
vocabulary so that "no close is ever signalled" is expressible (this code
never emits them). -/
inductive Effect where
  | text (s : String) : Effect
  | sendAddWatcher (dst : Nat) (watcher_id : String) (addr : Nat) : Effect
  | sendRemoveWatcher (dst : Nat) (watcher_id : String) : Effect
  | sendBroadcastMessage (dst : Nat) (message : String) : Effect
  | closeSelf : Effect
  | closeOther (dst : Nat) (reason : String) : Effect
deriving DecidableEq

/-- Canned replies, verbatim from the source. -/
def unknownCommandReply : String := "\x7b\"error\": \"Unknown command\"\x7d"

def invalidCommandFormatReply : String := "\x7b\"error\": \"Invalid command format\"\x7d"

def invalidJsonReply : String := "\x7b\"error\": \"Invalid JSON\"\x7d"

/-- `format!(r#"\x7b\x7b "name": "\x7b\x7d" \x7d\x7d"#, self.name)` of the
`whois` arm: plain interpolation, no JSON escaping. -/
def whoisReply (name : String) : String :=
  "\x7b \"name\": \"" ++ name ++ "\" \x7d"

structure StreamerWebSocket where
  name : String
  watchers : List (String × Nat)
deriving DecidableEq

structure WatcherWebSocket where
  watcher_id : String
  streamer_id : String
deriving DecidableEq

namespace StreamerWebSocket

/-- `Actor::started`: unconditionally store this actor's address under its
name (overwriting any previous streamer of the same name). -/
def started (self : StreamerWebSocket) (selfAddr : Nat) (store : Store) : Store :=
  insertKV self.name selfAddr store

/-- `Actor::stopped`: unconditionally remove the entry under this actor's
name, with no check that the stored address is this actor's own. -/
def stopped (self : StreamerWebSocket) (store : Store) : Store :=
  eraseK self.name store

/-- `Handler<AddWatcher>`: insert (replacing any previous holder of the
identity); no message of any kind is sent. -/
def handleAddWatcher (self : StreamerWebSocket) (watcher_id : String) (addr : Nat) :
    StreamerWebSocket × List Effect :=
  ({ self with watchers := insertKV watcher_id addr self.watchers }, [])

/-- `Handler<RemoveWatcher>`. -/
def handleRemoveWatcher (self : StreamerWebSocket) (watcher_id : String) :
    StreamerWebSocket × List Effect :=
  ({ self with watchers := eraseK watcher_id self.watchers }, [])

/-- `Handler<BroadcastMessage>`: `do_send` the message to every watcher in
the current map. -/
def handleBroadcastMessage (self : StreamerWebSocket) (message : String) : List Effect :=
  self.watchers.map (fun p => Effect.sendBroadcastMessage p.2 message)

/-- `StreamHandler::handle` on a text frame. -/
def handleText (self : StreamerWebSocket) (text : String) : List Effect :=
  match parseJson text with
  | some json =>
    match (json.get "command").bind Json.asStr with
    | some command =>
      if command = "list" then
        [Effect.text (serializeStringList (self.watchers.map Prod.fst))]
      else if command = "whois" then
        [Effect.text (whoisReply self.name)]
      else if command = "broadcast" then
        match (json.get "message").bind Json.asStr with
        | some message => self.watchers.map (fun p => Effect.sendBroadcastMessage p.2 message)
        | none => []
      else [Effect.text unknownCommandReply]
    | none => [Effect.text invalidCommandFormatReply]
  | none => [Effect.text invalidJsonReply]

end StreamerWebSocket

namespace WatcherWebSocket

/-- `Actor::started`: if the streamer is registered, `do_send` it an
`AddWatcher` and acknowledge on the watcher's socket; otherwise do nothing
at all (in particular the session is not closed). -/
def started (self : WatcherWebSocket) (selfAddr : Nat) (store : Store) : List Effect :=
  match store.lookup self.streamer_id with
  | some streamer =>
    [Effect.sendAddWatcher streamer self.watcher_id selfAddr,
     Effect.text ("Connected as Watcher: " ++ self.watcher_id ++
       " to Streamer: " ++ self.streamer_id)]
  | none => []

/-- `Actor::stopped`. -/
def stopped (self : WatcherWebSocket) (store : Store) : List Effect :=
  match store.lookup self.streamer_id with
  | some streamer => [Effect.sendRemoveWatcher streamer self.watcher_id]
  | none => []

/-- `StreamHandler::handle` on a text frame: only `broadcast` is
recognized. -/
def handleText (self : WatcherWebSocket) (store : Store) (text : String) : List Effect :=
  match parseJson text with
  | some json =>
    match (json.get "command").bind Json.asStr with
    | some command =>
      if command = "broadcast" then
        match (json.get "message").bind Json.asStr with
        | some message =>
          match store.lookup self.streamer_id with
          | some streamer => [Effect.sendBroadcastMessage streamer message]
          | none => []
        | none => []
      else [Effect.text unknownCommandReply]
    | none => [Effect.text invalidCommandFormatReply]
  | none => [Effect.text invalidJsonReply]

/-- `Handler<BroadcastMessage>`: push the payload to the transport. -/
def handleBroadcastMessage (self : WatcherWebSocket) (message : String) : List Effect :=
  [Effect.text message]

end WatcherWebSocket

/-! ## Route handlers (connection establishment) -/

/-- Outcome of a connection-establishment request: either a 400 client
error with a readable body and no upgrade, or a WebSocket upgrade starting
the given actor. -/
inductive WsResponse where
  | badRequest (body : String) : WsResponse
  | upgradedStreamer (actor : StreamerWebSocket) : WsResponse
  | upgradedWatcher (actor : WatcherWebSocket) : WsResponse
deriving DecidableEq

def getQueryParam (params : List (String × String)) (k : String) : Option String :=
  params.lookup k

def missingIdBody : String := "Missing \x27id\x27 query parameter"

def missingStreamerIdBody : String := "Missing \x27streamer_id\x27 query parameter"

/-- `streamer_ws`: validate the `id` query parameter, then `ws::start` the
streamer actor (whose `started` hook registers it, at its fresh address,
in the global store).  Returns the response and the store afterwards. -/
def streamer_ws (params : List (String × String)) (store : Store) (freshAddr : Nat) :
    WsResponse × Store :=
  match getQueryParam params "id" with
  | some id =>
    if id = "" then (WsResponse.badRequest missingIdBody, store)
    else
      let actor : StreamerWebSocket := { name := id, watchers := [] }
      (WsResponse.upgradedStreamer actor, actor.started freshAddr store)
  | none => (WsResponse.badRequest missingIdBody, store)

/-- `watcher_ws`: validate `id` and `streamer_id`, reject if the streamer
is not registered, else `ws::start` the watcher actor (whose `started`
hook emits its effects).  Returns response, store afterwards, and the
started hook's effects. -/
def watcher_ws (params : List (String × String)) (store : Store) (freshAddr : Nat) :
    WsResponse × Store × List Effect :=
  match getQueryParam params "id" with
  | some wid =>
    if wid = "" then (WsResponse.badRequest missingIdBody, store, [])
    else
      match getQueryParam params "streamer_id" with
      | some sid =>
        if sid = "" then (WsResponse.badRequest missingStreamerIdBody, store, [])
        else
          match store.lookup sid with
          | some _ =>
            let actor : WatcherWebSocket := { watcher_id := wid, streamer_id := sid }
            (WsResponse.upgradedWatcher actor, store, actor.started freshAddr store)
          | none => (WsResponse.badRequest "Streamer does not exist", store, [])
      | none => (WsResponse.badRequest missingStreamerIdBody, store, [])
  | none => (WsResponse.badRequest missingIdBody, store, [])

/-- Best-effort delivery: given a per-destination transport-failure
predicate, the broadcasts of an effect list that actually arrive.  Each
destination's outcome depends only on its own transport. -/
def deliveredBroadcasts (fails : Nat → Bool) (effects : List Effect) : List (Nat × String) :=
  effects.filterMap (fun e =>
    match e with
    | Effect.sendBroadcastMessage dst m => if fails dst then none else some (dst, m)
    | _ => none)

/-! ## Helper lemmas -/

theorem lookup_insertKV_self (k : String) (v : Nat) (m : List (String × Nat)) :
    (insertKV k v m).lookup k = some v := by
  simp [insertKV, List.lookup]

theorem lookup_filter_out (k : String) (m : List (String × Nat)) :
    (m.filter (fun p => !(p.1 == k))).lookup k = none := by
  induction m with
  | nil => rfl
  | cons p t ih =>
    by_cases h : p.1 = k
    · have hb : (!(p.1 == k)) = false := by simp [h]
      simp [List.filter_cons, hb, ih]
    · have hb : (!(p.1 == k)) = true := by simp [h]
      have hk : (k == p.1) = false := by simp [Ne.symm h]
      simp [List.filter_cons, hb, List.lookup, hk, ih]

/-! ## C1: duplicate-identity join -/

/-- C1.  The claim says a join under an already-registered identity first
sends the prior holder a forced-close signal.  The code only overwrites
the map entry: the `AddWatcher` handler emits no message at all.  Amended
form: the mapping is overwritten with the new handle and no signal of any
kind (in particular no forced-close) is sent to the prior holder. -/
theorem c1_duplicate_identity_overwrites_silently (self : StreamerWebSocket)
    (wid : String) (old a : Nat) (h : self.watchers.lookup wid = some old) :
    (self.handleAddWatcher wid a).2 = [] ∧
    (self.handleAddWatcher wid a).1.watchers.lookup wid = some a := by
  exact ⟨rfl, lookup_insertKV_self wid a self.watchers⟩

/-- C1 witness: concrete duplicate-identity join. -/
theorem c1_duplicate_identity_overwrites_silently_witness :
    (({ name := "s1", watchers := [("alice", 1)] } : StreamerWebSocket).watchers.lookup "alice"
      = some 1) ∧
    (({ name := "s1", watchers := [("alice", 1)] } : StreamerWebSocket).handleAddWatcher
      "alice" 2).2 = [] ∧
    (({ name := "s1", watchers := [("alice", 1)] } : StreamerWebSocket).handleAddWatcher
      "alice" 2).1.watchers.lookup "alice" = some 2 := by
  refine ⟨rfl, ?_, ?_⟩
  · exact (c1_duplicate_identity_overwrites_silently
      { name := "s1", watchers := [("alice", 1)] } "alice" 1 2 rfl).1
  · exact (c1_duplicate_identity_overwrites_silently
      { name := "s1", watchers := [("alice", 1)] } "alice" 1 2 rfl).2

/-- C1 counterexample: "alice" is registered under connection 1; a new
connection 2 joins as "alice"; the handler emits no effect at all, so the
prior holder is never sent the forced-close signal the claim asserts. -/
theorem c1_counterexample :
    (({ name := "s1", watchers := [("alice", 1)] } : StreamerWebSocket).watchers.lookup "alice"
      = some 1) ∧
    (({ name := "s1", watchers := [("alice", 1)] } : StreamerWebSocket).handleAddWatcher
      "alice" 2).2 = [] ∧
    Effect.closeOther 1 "replaced by new connection" ∉
      (({ name := "s1", watchers := [("alice", 1)] } : StreamerWebSocket).handleAddWatcher
        "alice" 2).2 := by
  refine ⟨rfl, rfl, ?_⟩
  simp [StreamerWebSocket.handleAddWatcher]

/-! ## C2: broadcast fan-out -/

/-- C2.  A `BroadcastMessage` fans the payload out to exactly the watchers
registered in the map at that moment — a pair `(dst, m)` is delivered iff
`dst`'s own transport does not fail, `m` is the broadcast payload, and
`dst` is a registered member; failure of any other member's transport is
irrelevant.  The streamer's text-frame `broadcast` arm performs the same
fan-out. -/
theorem c2_broadcast_fanout (s : StreamerWebSocket) (message : String)
    (fails : Nat → Bool) (dst : Nat) (m : String) :
    ((dst, m) ∈ deliveredBroadcasts fails (s.handleBroadcastMessage message) ↔
      (fails dst = false ∧ m = message ∧ dst ∈ s.watchers.map Prod.snd)) ∧
    s.handleText "\x7b\"command\": \"broadcast\", \"message\": \"m\"\x7d" =
      s.watchers.map (fun p => Effect.sendBroadcastMessage p.2 "m") := by
  constructor
  · simp only [deliveredBroadcasts, StreamerWebSocket.handleBroadcastMessage,
      List.mem_filterMap, List.mem_map]
    constructor
    · rintro ⟨e, ⟨p, hp, rfl⟩, he⟩
      by_cases hf : fails p.2
      · simp [hf] at he
      · change (if fails p.2 = true then none else some (p.2, message)) = some (dst, m) at he
        rw [if_neg hf] at he
        simp only [Option.some.injEq, Prod.mk.injEq] at he
        obtain ⟨hd, hm⟩ := he
        subst hd
        subst hm
        exact ⟨by simpa using hf, rfl, p, hp, rfl⟩
    · rintro ⟨h1, hm, p, hp, hdst⟩
      subst hdst
      exact ⟨Effect.sendBroadcastMessage p.2 message, ⟨p, hp, rfl⟩, by simp [h1, hm]⟩
  · rfl

/-! ## C3: the `list` command -/

/-- C3 counterexample: "alice" is a joined member of channel "room1"
(watcher of streamer "room1"), yet her `list` frame is answered with the
`Unknown command` error object — not a JSON array of member identities. -/
theorem c3_counterexample :
    WatcherWebSocket.handleText { watcher_id := "alice", streamer_id := "room1" }
      [("room1", 1)] "\x7b\"command\": \"list\"\x7d" = [Effect.text unknownCommandReply] ∧
    parseJson unknownCommandReply = some (Json.obj [("error", Json.str "Unknown command")]) := by
  exact ⟨rfl, rfl⟩

/-- C3 amended: only the streamer (primary) connection supports `list`;
its reply is the JSON array of the watcher identities in its map (its own
identity not included), sent on its own socket only; a watcher sending
`list` receives the `Unknown command` error. -/
theorem c3_list_only_streamer (s : StreamerWebSocket) (w : WatcherWebSocket) (store : Store) :
    s.handleText "\x7b\"command\": \"list\"\x7d" =
      [Effect.text (serializeStringList (s.watchers.map Prod.fst))] ∧
    w.handleText store "\x7b\"command\": \"list\"\x7d" = [Effect.text unknownCommandReply] ∧
    serializeStringList ["alice", "bob"] = "[\"alice\",\"bob\"]" ∧
    parseJson "[\"alice\",\"bob\"]" = some (Json.arr [Json.str "alice", Json.str "bob"]) := by
  exact ⟨rfl, rfl, rfl, rfl⟩

/-! ## C4: protocol robustness -/

/-- C4.  A `broadcast` frame without `message` produces no effect at all;
non-JSON text is answered with the Invalid JSON error; a JSON frame with
no string `command` field is answered with the Invalid command format
error; and no inbound text frame ever closes the session. -/
theorem c4_protocol_robustness (s : StreamerWebSocket) (w : WatcherWebSocket)
    (store : Store) (text : String) :
    s.handleText "\x7b\"command\": \"broadcast\"\x7d" = [] ∧
    w.handleText store "\x7b\"command\": \"broadcast\"\x7d" = [] ∧
    (parseJson text = none →
      s.handleText text = [Effect.text invalidJsonReply] ∧
      w.handleText store text = [Effect.text invalidJsonReply]) ∧
    (∀ j, parseJson text = some j → (j.get "command").bind Json.asStr = none →
      s.handleText text = [Effect.text invalidCommandFormatReply] ∧
      w.handleText store text = [Effect.text invalidCommandFormatReply]) ∧
    Effect.closeSelf ∉ s.handleText text ∧
    Effect.closeSelf ∉ w.handleText store text := by
  refine ⟨rfl, rfl, ?_, ?_, ?_, ?_⟩
  · intro h
    constructor <;> simp [StreamerWebSocket.handleText, WatcherWebSocket.handleText, h]
  · intro j hj hc
    constructor <;> simp [StreamerWebSocket.handleText, WatcherWebSocket.handleText, hj, hc]
  · unfold StreamerWebSocket.handleText
    rcases hp : parseJson text with _ | j <;> simp only [hp]
    · simp
    · rcases hc : (j.get "command").bind Json.asStr with _ | command <;> simp only [hc]
      · simp
      · by_cases h1 : command = "list"
        · simp [h1]
        · by_cases h2 : command = "whois"
          · simp [h1, h2]
          · by_cases h3 : command = "broadcast"
            · rcases hm : (j.get "message").bind Json.asStr with _ | message <;>
                simp [h1, h2, h3, hm, List.mem_map]
            · simp [h1, h2, h3]
  · unfold WatcherWebSocket.handleText
    rcases hp : parseJson text with _ | j <;> simp only [hp]
    · simp
    · rcases hc : (j.get "command").bind Json.asStr with _ | command <;> simp only [hc]
      · simp
      · by_cases h3 : command = "broadcast"
        · rcases hm : (j.get "message").bind Json.asStr with _ | message
          · simp [h3, hm]
          · rcases hl : store.lookup w.streamer_id with _ | streamer <;> simp [h3, hm, hl]
        · simp [h3]

/-- C4 witness: concrete malformed frames. -/
theorem c4_protocol_robustness_witness :
    StreamerWebSocket.handleText { name := "s1", watchers := [] } "hello" =
      [Effect.text invalidJsonReply] ∧
    WatcherWebSocket.handleText { watcher_id := "w1", streamer_id := "s1" } [] "[]" =
      [Effect.text invalidCommandFormatReply] := by
  constructor
  · exact ((c4_protocol_robustness { name := "s1", watchers := [] }
      { watcher_id := "w1", streamer_id := "s1" } [] "hello").2.2.1 rfl).1
  · exact ((c4_protocol_robustness { name := "s1", watchers := [] }
      { watcher_id := "w1", streamer_id := "s1" } [] "[]").2.2.2.1
        (Json.arr []) rfl rfl).2

/-! ## C5: missing join parameters -/

/-- C5.  A connection-establishment request with a required join parameter
absent or empty is answered with a 400 client error carrying a
human-readable body; the transport is not upgraded and neither the
registry nor any channel state changes (the watcher path also emits no
effects). -/
theorem c5_missing_parameter_rejected (params : List (String × String))
    (store : Store) (a : Nat) :
    ((getQueryParam params "id" = none ∨ getQueryParam params "id" = some "") →
      streamer_ws params store a = (WsResponse.badRequest missingIdBody, store) ∧
      watcher_ws params store a = (WsResponse.badRequest missingIdBody, store, [])) ∧
    ((getQueryParam params "streamer_id" = none ∨ getQueryParam params "streamer_id" = some "") →
      watcher_ws params store a = (WsResponse.badRequest missingStreamerIdBody, store, []) ∨
      watcher_ws params store a = (WsResponse.badRequest missingIdBody, store, [])) := by
  constructor
  · rintro (h | h) <;> constructor <;> simp [streamer_ws, watcher_ws, h]
  · intro h
    rcases hid : getQueryParam params "id" with _ | wid
    · right
      simp [watcher_ws, hid]
    · by_cases hw : wid = ""
      · right
        simp [watcher_ws, hid, hw]
      · left
        rcases h with h | h <;> simp [watcher_ws, hid, hw, h]

/-- C5 witness: a request with no parameters at all. -/
theorem c5_missing_parameter_rejected_witness :
    streamer_ws [] [] 0 = (WsResponse.badRequest missingIdBody, []) ∧
    watcher_ws [] [] 0 = (WsResponse.badRequest missingIdBody, [], []) ∧
    (watcher_ws [("id", "w1")] [] 0 = (WsResponse.badRequest missingStreamerIdBody, [], []) ∨
      watcher_ws [("id", "w1")] [] 0 = (WsResponse.badRequest missingIdBody, [], [])) := by
  refine ⟨?_, ?_, ?_⟩
  · exact ((c5_missing_parameter_rejected [] [] 0).1 (Or.inl rfl)).1
  · exact ((c5_missing_parameter_rejected [] [] 0).1 (Or.inl rfl)).2
  · exact (c5_missing_parameter_rejected [("id", "w1")] [] 0).2 (Or.inl rfl)

/-! ## C6: watcher join to a nonexistent streamer -/

/-- C6.  A watcher join naming a streamer that is not in the registry is
rejected with a 400 client error before any upgrade: the response is
`badRequest`, the store is unchanged, and no actor effects occur. -/
theorem c6_nonexistent_streamer_rejected (params : List (String × String))
    (store : Store) (a : Nat) (wid sid : String)
    (h1 : getQueryParam params "id" = some wid) (h2 : wid ≠ "")
    (h3 : getQueryParam params "streamer_id" = some sid) (h4 : sid ≠ "")
    (h5 : store.lookup sid = none) :
    watcher_ws params store a = (WsResponse.badRequest "Streamer does not exist", store, []) := by
  simp [watcher_ws, h1, h2, h3, h4, h5]

/-- C6 witness: "viewer1" joining under never-connected "streamerX". -/
theorem c6_nonexistent_streamer_rejected_witness :
    watcher_ws [("id", "viewer1"), ("streamer_id", "streamerX")] [] 0 =
      (WsResponse.badRequest "Streamer does not exist", [], []) := by
  exact c6_nonexistent_streamer_rejected _ [] 0 "viewer1" "streamerX" rfl
    (by decide) rfl (by decide) rfl

/-! ## C7: the `whois` command -/

theorem parseStrBody_quote (cs : List Char) : parseStrBody ('\"' :: cs) = some ([], cs) := by
  rw [parseStrBody.eq_def]
  rfl

theorem parseStrBody_plainChar (c : Char) (cs : List Char)
    (h1 : ¬c = '\"') (h2 : ¬c = '\\') (h3 : ¬c.toNat < 32) :
    parseStrBody (c :: cs) = (parseStrBody cs).map (fun p => (c :: p.1, p.2)) := by
  conv_lhs => rw [parseStrBody.eq_def]
  simp only [if_neg h1, if_neg h2, if_neg h3]

theorem parseStrBody_plain (l rest : List Char)
    (h : ∀ c ∈ l, jsonPlainChar c = true) :
    parseStrBody (l ++ '\"' :: rest) = some (l, rest) := by
  induction l with
  | nil => simpa using parseStrBody_quote rest
  | cons c t ih =>
    have hc := h c (List.mem_cons_self c t)
    simp only [jsonPlainChar, Bool.and_eq_true, Bool.not_eq_true', beq_eq_false_iff_ne,
      ne_eq, decide_eq_false_iff_not] at hc
    obtain ⟨⟨h1, h2⟩, h3⟩ := hc
    have ht : ∀ x ∈ t, jsonPlainChar x = true := fun x hx => h x (List.mem_cons_of_mem c hx)
    simp only [List.cons_append]
    rw [parseStrBody_plainChar c _ h1 h2 h3, ih ht]
    rfl

theorem skipWs_space (l : List Char) : skipWs (' ' :: l) = skipWs l := by
  simp [skipWs, isWs]

theorem skipWs_nonWs (c : Char) (l : List Char) (h : isWs c = false) :
    skipWs (c :: l) = c :: l := by
  simp [skipWs, h]

theorem parseVal_string_plain (g : Nat) (l rest : List Char)
    (h : ∀ c ∈ l, jsonPlainChar c = true) :
    parseVal (g + 1) (' ' :: '\"' :: (l ++ '\"' :: rest)) =
      some (Json.str (String.mk l), rest) := by
  have h1 : skipWs (' ' :: '\"' :: (l ++ '\"' :: rest)) = '\"' :: (l ++ '\"' :: rest) := by
    rw [skipWs_space, skipWs_nonWs _ _ (by decide)]
  simp [parseVal, h1, parseStrBody_plain l rest h]

theorem parseObjItems_whois (g : Nat) (l : List Char)
    (h : ∀ c ∈ l, jsonPlainChar c = true) :
    parseObjItems (g + 2)
      ('\"' :: 'n' :: 'a' :: 'm' :: 'e' :: '\"' :: ':' :: ' ' :: '\"' ::
        (l ++ '\"' :: ' ' :: rbrace :: [])) [] =
      some (Json.obj [("name", Json.str (String.mk l))], []) := by
  have e : g + 2 = (g + 1) + 1 := rfl
  rw [e]
  have hkey : parseStrBody
      ('n' :: 'a' :: 'm' :: 'e' :: '\"' :: (':' :: ' ' :: '\"' :: (l ++ '\"' :: ' ' :: rbrace :: []))) =
      some (['n', 'a', 'm', 'e'], ':' :: ' ' :: '\"' :: (l ++ '\"' :: ' ' :: rbrace :: [])) :=
    parseStrBody_plain ['n', 'a', 'm', 'e'] _ (by decide)
  have hcolon : skipWs (':' :: ' ' :: '\"' :: (l ++ '\"' :: ' ' :: rbrace :: [])) =
      ':' :: ' ' :: '\"' :: (l ++ '\"' :: ' ' :: rbrace :: []) :=
    skipWs_nonWs _ _ (by decide)
  have hval := parseVal_string_plain g l (' ' :: rbrace :: []) h
  have hclose : skipWs (' ' :: rbrace :: []) = rbrace :: [] := by
    rw [skipWs_space, skipWs_nonWs _ _ (by decide)]
  have hne1 : ¬(rbrace = ',') := by decide
  simp [parseObjItems, hkey, hcolon, hval, hclose, hne1]
  try rfl

theorem parseVal_whois (g : Nat) (l : List Char)
    (h : ∀ c ∈ l, jsonPlainChar c = true) :
    parseVal (g + 3)
      (lbrace :: ' ' :: '\"' :: 'n' :: 'a' :: 'm' :: 'e' :: '\"' :: ':' :: ' ' :: '\"' ::
        (l ++ '\"' :: ' ' :: rbrace :: [])) =
      some (Json.obj [("name", Json.str (String.mk l))], []) := by
  have e : g + 3 = (g + 2) + 1 := rfl
  rw [e]
  have h0 : skipWs
      (lbrace :: ' ' :: '\"' :: 'n' :: 'a' :: 'm' :: 'e' :: '\"' :: ':' :: ' ' :: '\"' ::
        (l ++ '\"' :: ' ' :: rbrace :: [])) =
      lbrace :: ' ' :: '\"' :: 'n' :: 'a' :: 'm' :: 'e' :: '\"' :: ':' :: ' ' :: '\"' ::
        (l ++ '\"' :: ' ' :: rbrace :: []) :=
    skipWs_nonWs _ _ (by decide)
  have h1 : skipWs
      (' ' :: '\"' :: 'n' :: 'a' :: 'm' :: 'e' :: '\"' :: ':' :: ' ' :: '\"' ::
        (l ++ '\"' :: ' ' :: rbrace :: [])) =
      '\"' :: 'n' :: 'a' :: 'm' :: 'e' :: '\"' :: ':' :: ' ' :: '\"' ::
        (l ++ '\"' :: ' ' :: rbrace :: []) := by
    rw [skipWs_space, skipWs_nonWs _ _ (by decide)]
  have h2 := parseObjItems_whois g l h
  have hne_a : ¬(lbrace = '\"') := by decide
  have hne_b : ¬('\"' = rbrace) := by decide
  simp [parseVal, h0, h1, h2, hne_a, hne_b]
  try rfl

/-- The whois reply parses as the one-field object naming the streamer
whenever the name has no quote, backslash, or control character. -/
theorem parseJson_whoisReply (name : String)
    (h : ∀ c ∈ name.data, jsonPlainChar c = true) :
    parseJson (whoisReply name) = some (Json.obj [("name", Json.str name)]) := by
  have hdata : (whoisReply name).data =
      lbrace :: ' ' :: '\"' :: 'n' :: 'a' :: 'm' :: 'e' :: '\"' :: ':' :: ' ' :: '\"' ::
        (name.data ++ '\"' :: ' ' :: rbrace :: []) := rfl
  have hlen : (whoisReply name).length + 1 = name.data.length + 12 + 3 := by
    show (whoisReply name).data.length + 1 = name.data.length + 12 + 3
    rw [hdata]
    simp [List.length_append]
    try omega
  unfold parseJson
  rw [hdata, hlen]
  rw [parseVal_whois (name.data.length + 12) name.data h]
  rfl

/-- C7 counterexample: a joined watcher sending `whois` is answered with
the `Unknown command` error object, which names no identity at all. -/
theorem c7_counterexample :
    WatcherWebSocket.handleText { watcher_id := "viewer1", streamer_id := "s1" } [("s1", 1)]
      "\x7b\"command\": \"whois\"\x7d" = [Effect.text unknownCommandReply] := by
  exact rfl

/-- C7 amended: only the streamer connection supports `whois`; its reply
is the object naming its own identity under the `name` field (well-formed
JSON whenever the name has no quote/backslash/control character, cf. C10);
a watcher sending `whois` receives the `Unknown command` error. -/
theorem c7_whois_semantics (s : StreamerWebSocket) (w : WatcherWebSocket) (store : Store)
    (h : ∀ c ∈ s.name.data, jsonPlainChar c = true) :
    s.handleText "\x7b\"command\": \"whois\"\x7d" = [Effect.text (whoisReply s.name)] ∧
    parseJson (whoisReply s.name) = some (Json.obj [("name", Json.str s.name)]) ∧
    w.handleText store "\x7b\"command\": \"whois\"\x7d" = [Effect.text unknownCommandReply] := by
  exact ⟨rfl, parseJson_whoisReply s.name h, rfl⟩

/-- C7 witness: streamer "alice". -/
theorem c7_whois_semantics_witness :
    parseJson (whoisReply "alice") = some (Json.obj [("name", Json.str "alice")]) := by
  exact (c7_whois_semantics { name := "alice", watchers := [] }
    { watcher_id := "w1", streamer_id := "s1" } [] (by decide)).2.1

/-! ## C8: watcher actor starting after its streamer vanished -/

/-- C8.  If the streamer's name is absent from the registry when the
watcher actor starts, the hook does nothing: no `AddWatcher` is sent (so
no membership map gains the watcher), no acknowledgment text is emitted,
and the session is not closed. -/
theorem c8_started_missing_streamer (self : WatcherWebSocket) (selfAddr : Nat)
    (store : Store) (h : store.lookup self.streamer_id = none) :
    self.started selfAddr store = [] ∧
    Effect.closeSelf ∉ self.started selfAddr store := by
  constructor <;> simp [WatcherWebSocket.started, h]

/-- C8 witness: watcher starting against an empty registry. -/
theorem c8_started_missing_streamer_witness :
    WatcherWebSocket.started { watcher_id := "viewer1", streamer_id := "streamerX" } 7 [] = [] := by
  exact (c8_started_missing_streamer { watcher_id := "viewer1", streamer_id := "streamerX" }
    7 [] rfl).1

/-! ## C9: streamer stop removes the registry entry unconditionally -/

/-- C9.  `stopped` erases the entry under the actor's name without
comparing the stored address to the stopping actor's own: whatever address
is currently registered under that name — including a newer streamer's —
the entry is gone afterwards. -/
theorem c9_stopped_removes_unconditionally (self : StreamerWebSocket)
    (store : Store) (a2 : Nat) (h : store.lookup self.name = some a2) :
    (self.stopped store).lookup self.name = none := by
  simpa [StreamerWebSocket.stopped, eraseK] using lookup_filter_out self.name store

/-- C9 witness: streamer actor 1 registers as "s1", actor 2 re-registers
as "s1" (overwriting), then actor 1 stops — the new actor's entry is
deleted. -/
theorem c9_stopped_removes_unconditionally_witness :
    (({ name := "s1", watchers := [] } : StreamerWebSocket).stopped
      (({ name := "s1", watchers := [] } : StreamerWebSocket).started 2
        (({ name := "s1", watchers := [] } : StreamerWebSocket).started 1 []))).lookup "s1"
      = none := by
  exact c9_stopped_removes_unconditionally { name := "s1", watchers := [] } _ 2 rfl

/-! ## C10: whois interpolation produces malformed JSON -/

/-- C10.  The `whois` arm interpolates the streamer name into the reply by
plain formatting with no JSON escaping, so a name containing a double
quote — here `a"b` — yields a reply that is not well-formed JSON. -/
theorem c10_whois_unescaped_quote_malformed :
    StreamerWebSocket.handleText { name := "a\"b", watchers := [] }
      "\x7b\"command\": \"whois\"\x7d" = [Effect.text (whoisReply "a\"b")] ∧
    parseJson (whoisReply "a\"b") = none := by
  exact ⟨rfl, rfl⟩

end Transmitter
